import Mathlib

/-!
Shallow embedding of the RsTarot library: French Tarot card model with
point values and trick ranks. Machine `u8` values are modelled as `Nat`
(with `% 256` where the source performs `u8` arithmetic), `f32` point
constants as exact rationals (every constant in the source is dyadic and
never computed with), panicking paths as `Option` (`none` = panic), and
fallible constructors as `Except`.
-/

namespace Tarot

/-- Enum representing the four different suit colors. -/
inductive Color where
  | Clubs
  | Spades
  | Diamonds
  | Hearts
deriving DecidableEq, Repr

/-- Enum representing the four different face ranks. -/
inductive Face where
  | King
  | Queen
  | Knight
  | Jack
deriving DecidableEq, Repr

/-- Enum representing the Theme of a trick: `Trump` or `Color c`. -/
inductive Theme where
  | Trump
  | Color (c : Color)
deriving DecidableEq, Repr

/-- Mirrors `Theme::is_color`: `matches!(self, Theme::Color(_))`. -/
def Theme.is_color : Theme → Bool
  | .Color _ => true
  | .Trump => false

/-- Mirrors `Theme::is_trump`: `!self.is_color()`. -/
def Theme.is_trump (t : Theme) : Bool :=
  !t.is_color

/-- Mirrors `Theme::color`: the color of the theme, wrapped in an option. -/
def Theme.color : Theme → Option Tarot.Color
  | .Trump => none
  | .Color c => some c

/-- Mirrors `Theme::color_checked`; the source panics on `Trump`, which is
modelled by returning `none`. -/
def Theme.color_checked : Theme → Option Tarot.Color
  | .Trump => none
  | .Color c => some c

/-- Mirrors `TarotValueError` from `errors.rs`: carries the offending value. -/
structure TarotValueError where
  value : Nat
deriving DecidableEq, Repr

/-- Mirrors `TarotValueError::new`. -/
def TarotValueError.new (value : Nat) : TarotValueError :=
  { value := value }

/-- Mirrors `PipValueError`: wraps a `TarotValueError`. -/
structure PipValueError where
  inner : TarotValueError
deriving DecidableEq, Repr

/-- Mirrors `PipValueError::new`. -/
def PipValueError.new (value : Nat) : PipValueError :=
  { inner := TarotValueError.new value }

/-- Mirrors `impl Display for PipValueError`. -/
def PipValueError.display (e : PipValueError) : String :=
  "the value " ++ toString e.inner.value ++ " doesn\x27t represent any pip card"

/-- Mirrors `TrumpValueError`: wraps a `TarotValueError`. -/
structure TrumpValueError where
  inner : TarotValueError
deriving DecidableEq, Repr

/-- Mirrors `TrumpValueError::new`. -/
def TrumpValueError.new (value : Nat) : TrumpValueError :=
  { inner := TarotValueError.new value }

/-- Mirrors `impl Display for TrumpValueError`; the source writes the same
"pip card" template as `PipValueError`. -/
def TrumpValueError.display (e : TrumpValueError) : String :=
  "the value " ++ toString e.inner.value ++ " doesn\x27t represent any pip card"

/-- Represents a color card, i.e. not a trump card. Field projections model
the `color()` / `number()` / `face()` accessors of the source. -/
structure ColorCard where
  color : Color
  face : Option Face
  number : Nat
deriving DecidableEq, Repr

/-- Mirrors `ColorCard::new_face`: always succeeds, the number is derived
from the face by the source's inline match. -/
def ColorCard.new_face (face : Face) (color : Color) : ColorCard :=
  { color := color
    face := some face
    number :=
      match face with
      | .King => 14
      | .Queen => 13
      | .Knight => 12
      | .Jack => 11 }

/-- Mirrors `ColorCard::new_pip`: `if number > 0 && number < 11` succeeds,
otherwise fails with `PipValueError::new(number)`. -/
def ColorCard.new_pip (number : Nat) (color : Color) :
    Except PipValueError ColorCard :=
  if number > 0 ∧ number < 11 then
    .ok { color := color, number := number, face := none }
  else
    .error (PipValueError.new number)

/-- Mirrors `ColorCard::is_face`: `self.face.is_some()`. -/
def ColorCard.is_face (c : ColorCard) : Bool :=
  c.face.isSome

/-- Mirrors `ColorCard::is_pip`: `!self.is_face()`. -/
def ColorCard.is_pip (c : ColorCard) : Bool :=
  !c.is_face

/-- Mirrors `ColorCard::face_checked`: `self.face.unwrap()`; the panic on a
pip card is modelled by `none`. -/
def ColorCard.face_checked (c : ColorCard) : Option Face :=
  c.face

/-- Mirrors `impl Card for ColorCard::points`. The `f32` constants are
modelled exactly as rationals; the guarded `unwrap` keeps the `Option`. -/
def ColorCard.points (c : ColorCard) : Option Rat :=
  if c.is_face then
    c.face.map fun f =>
      match f with
      | .King => (4.5 : Rat)
      | .Queen => (3.5 : Rat)
      | .Knight => (2.5 : Rat)
      | .Jack => (1.5 : Rat)
  else
    some (0.5 : Rat)

/-- Mirrors `impl Card for ColorCard::rank`:
`if theme.is_color() && self.color == theme.color_checked() { self.number }
else { 0 }`. The potential `color_checked` panic is kept as `Option`. -/
def ColorCard.rank (c : ColorCard) (theme : Theme) : Option Nat :=
  if theme.is_color then
    theme.color_checked.map fun col => if c.color = col then c.number else 0
  else
    some 0

/-- Enum representing a trump card: `Number(u8)` or `Fool`. -/
inductive TrumpCard where
  | Number (n : Nat)
  | Fool
deriving DecidableEq, Repr

/-- Mirrors `TrumpCard::new_trump_card`: `if value > 0 && value < 22`
succeeds with `Number(value)`, otherwise fails with
`TrumpValueError::new(value)`. -/
def TrumpCard.new_trump_card (value : Nat) :
    Except TrumpValueError TrumpCard :=
  if value > 0 ∧ value < 22 then
    .ok (.Number value)
  else
    .error (TrumpValueError.new value)

/-- Mirrors `TrumpCard::little_one`: trump number 1. -/
def TrumpCard.little_one : TrumpCard :=
  .Number 1

/-- Mirrors `TrumpCard::the_world`: trump number 21. -/
def TrumpCard.the_world : TrumpCard :=
  .Number 21

/-- Mirrors `TrumpCard::is_fool`: `matches!(self, Self::Fool)`. -/
def TrumpCard.is_fool : TrumpCard → Bool
  | .Fool => true
  | .Number _ => false

/-- Mirrors `TrumpCard::is_oudler`: Fool, 1 and 21. -/
def TrumpCard.is_oudler : TrumpCard → Bool
  | .Fool => true
  | .Number n => n == 1 || n == 21

/-- Mirrors `TrumpCard::number`: the optional number of the trump card. -/
def TrumpCard.number : TrumpCard → Option Nat
  | .Number n => some n
  | .Fool => none

/-- Mirrors `impl Card for TrumpCard::points`. -/
def TrumpCard.points (t : TrumpCard) : Rat :=
  if t.is_oudler then (4.5 : Rat) else (0.5 : Rat)

/-- Mirrors `impl Card for TrumpCard::rank`; the `u8` addition `14 + *n` is
modelled with its wrap-around `% 256`. -/
def TrumpCard.rank (t : TrumpCard) (theme : Theme) : Nat :=
  match t with
  | .Fool => 0
  | .Number n => if theme.is_color then (14 + n) % 256 else n

/-- Construction invariant of `ColorCard` (established by `new_face` and
`new_pip`): a present face fixes the number to its ordinal, an absent face
means a pip number in `[1, 10]`. -/
def ColorCard.Inv (c : ColorCard) : Prop :=
  match c.face with
  | some Face.King => c.number = 14
  | some Face.Queen => c.number = 13
  | some Face.Knight => c.number = 12
  | some Face.Jack => c.number = 11
  | none => 1 ≤ c.number ∧ c.number ≤ 10

/-- Construction invariant of `TrumpCard` (established by
`new_trump_card`, `little_one`, `the_world` and the `Fool` literal). -/
def TrumpCard.Valid : TrumpCard → Prop
  | .Fool => True
  | .Number n => 1 ≤ n ∧ n ≤ 21

/-- Sum of the two card variants, mirroring "any implementor of the `Card`
trait"; used to compare ranks across variants. -/
inductive AnyCard where
  | suited (c : ColorCard)
  | trump (t : TrumpCard)
deriving DecidableEq, Repr

/-- Rank of either card variant (the `Card::rank` trait method). -/
def AnyCard.rank : AnyCard → Theme → Option Nat
  | .suited c, th => c.rank th
  | .trump t, th => some (t.rank th)

/-- Validity of either card variant. -/
def AnyCard.Valid : AnyCard → Prop
  | .suited c => c.Inv
  | .trump t => t.Valid

end Tarot

namespace Tarot

lemma ColorCard.rank_Color (cc : ColorCard) (c : Color) :
    cc.rank (Theme.Color c) = some (if cc.color = c then cc.number else 0) :=
  rfl

lemma ColorCard.rank_Trump (cc : ColorCard) :
    cc.rank Theme.Trump = some 0 :=
  rfl

lemma TrumpCard.rank_Number_Color (n : Nat) (h : n ≤ 21) (c : Color) :
    (TrumpCard.Number n).rank (Theme.Color c) = 14 + n := by
  simp only [TrumpCard.rank, Theme.is_color, if_true]
  exact Nat.mod_eq_of_lt (by omega)

lemma TrumpCard.rank_Number_Trump (n : Nat) :
    (TrumpCard.Number n).rank Theme.Trump = n :=
  rfl

lemma TrumpCard.rank_Fool (th : Theme) : TrumpCard.Fool.rank th = 0 :=
  rfl

lemma ColorCard.number_bounds (cc : ColorCard) (h : cc.Inv) :
    1 ≤ cc.number ∧ cc.number ≤ 14 := by
  obtain ⟨col, face, num⟩ := cc
  simp only
  cases face with
  | none =>
      simp [ColorCard.Inv] at h
      omega
  | some f =>
      cases f <;> simp [ColorCard.Inv] at h <;> omega

lemma ColorCard.eq_of_color_number_eq (c1 c2 : ColorCard)
    (h1 : c1.Inv) (h2 : c2.Inv) (hc : c1.color = c2.color)
    (hn : c1.number = c2.number) : c1 = c2 := by
  obtain ⟨col1, f1, n1⟩ := c1
  obtain ⟨col2, f2, n2⟩ := c2
  simp only at hc hn
  subst hc hn
  rcases f1 with _ | f1 <;> rcases f2 with _ | f2
  · rfl
  · cases f2 <;> simp [ColorCard.Inv] at h1 h2 <;> omega
  · cases f1 <;> simp [ColorCard.Inv] at h1 h2 <;> omega
  · cases f1 <;> cases f2 <;> simp [ColorCard.Inv] at h1 h2 <;>
      first
      | rfl
      | (exfalso; omega)

end Tarot

namespace Tarot

lemma ColorCard.new_pip_ok (n : Nat) (c : Color) (card : ColorCard)
    (h : ColorCard.new_pip n c = .ok card) :
    card = ⟨c, none, n⟩ ∧ 1 ≤ n ∧ n ≤ 10 := by
  by_cases hcond : n > 0 ∧ n < 11
  · simp only [ColorCard.new_pip] at h
    rw [if_pos hcond] at h
    injection h with h
    exact ⟨h.symm, by omega⟩
  · simp only [ColorCard.new_pip] at h
    rw [if_neg hcond] at h
    exact Except.noConfusion h

/-- Claim C1: for every validly constructed card and every theme, `rank` is
exactly: a `ColorCard` ranks its number (in `[1, 14]`) under a matching
`Color` theme and `0` otherwise (non-matching suit or `Trump` theme); the
Fool ranks `0` under every theme; `Number n` with `1 ≤ n ≤ 21` ranks
`14 + n` under any `Color` theme and `n` under the `Trump` theme. -/
theorem rank_of_valid_cards (cc : ColorCard) (hcc : cc.Inv)
    (t : TrumpCard) (ht : t.Valid) (c : Color) :
    (cc.color = c → cc.rank (Theme.Color c) = some cc.number) ∧
    (cc.color ≠ c → cc.rank (Theme.Color c) = some 0) ∧
    (1 ≤ cc.number ∧ cc.number ≤ 14) ∧
    cc.rank Theme.Trump = some 0 ∧
    (∀ th : Theme, TrumpCard.Fool.rank th = 0) ∧
    (∀ n, t = TrumpCard.Number n →
      t.rank (Theme.Color c) = 14 + n ∧ t.rank Theme.Trump = n ∧
      1 ≤ n ∧ n ≤ 21) := by
  refine ⟨?_, ?_, ColorCard.number_bounds cc hcc, ColorCard.rank_Trump cc,
    fun th => rfl, ?_⟩
  · intro h
    rw [ColorCard.rank_Color, if_pos h]
  · intro h
    rw [ColorCard.rank_Color, if_neg h]
  · rintro n rfl
    obtain ⟨h1, h2⟩ := ht
    exact ⟨TrumpCard.rank_Number_Color n h2 c, rfl, h1, h2⟩

/-- Witness for C1: the King of Hearts ranks 14 in a Hearts trick and the
21 of trumps ranks 35 there. -/
theorem rank_of_valid_cards_witness :
    (ColorCard.new_face Face.King Color.Hearts).rank
        (Theme.Color Color.Hearts) = some 14 ∧
    TrumpCard.the_world.rank (Theme.Color Color.Hearts) = 35 := by
  have h := rank_of_valid_cards (ColorCard.new_face Face.King Color.Hearts)
    rfl TrumpCard.the_world ⟨by omega, by omega⟩ Color.Hearts
  exact ⟨h.1 rfl, (h.2.2.2.2.2 21 rfl).1⟩

/-- Claim C2: `points` is exactly 4.5 for a King, 3.5 for a Queen, 2.5 for
a Knight, 1.5 for a Jack, 0.5 for every pip card, 4.5 for every oudler
trump (Fool, 1, 21) and 0.5 for every non-oudler trump `Number n` with
`2 ≤ n ≤ 20`. -/
theorem points_of_valid_cards (cc : ColorCard) (hcc : cc.Inv)
    (t : TrumpCard) (ht : t.Valid) :
    (cc.face = some Face.King → cc.points = some (4.5 : Rat)) ∧
    (cc.face = some Face.Queen → cc.points = some (3.5 : Rat)) ∧
    (cc.face = some Face.Knight → cc.points = some (2.5 : Rat)) ∧
    (cc.face = some Face.Jack → cc.points = some (1.5 : Rat)) ∧
    (cc.face = none → cc.points = some (0.5 : Rat)) ∧
    TrumpCard.Fool.points = (4.5 : Rat) ∧
    (TrumpCard.Number 1).points = (4.5 : Rat) ∧
    (TrumpCard.Number 21).points = (4.5 : Rat) ∧
    (∀ n, t = TrumpCard.Number n → 2 ≤ n → n ≤ 20 →
      t.points = (0.5 : Rat)) := by
  refine ⟨?_, ?_, ?_, ?_, ?_, rfl, rfl, rfl, ?_⟩
  · intro h
    simp [ColorCard.points, ColorCard.is_face, h]
  · intro h
    simp [ColorCard.points, ColorCard.is_face, h]
  · intro h
    simp [ColorCard.points, ColorCard.is_face, h]
  · intro h
    simp [ColorCard.points, ColorCard.is_face, h]
  · intro h
    simp [ColorCard.points, ColorCard.is_face, h]
  · rintro n rfl h2 h20
    have h1 : ¬ (n == 1 || n == 21) = true := by
      simp only [Bool.or_eq_true, beq_iff_eq]
      omega
    simp [TrumpCard.points, TrumpCard.is_oudler, h1]

/-- Witness for C2: the Queen of Hearts is worth 3.5 points and the 5 of
trumps 0.5 points. -/
theorem points_of_valid_cards_witness :
    (ColorCard.new_face Face.Queen Color.Hearts).points = some (3.5 : Rat) ∧
    (TrumpCard.Number 5).points = (0.5 : Rat) := by
  have h := points_of_valid_cards (ColorCard.new_face Face.Queen Color.Hearts)
    rfl (TrumpCard.Number 5) ⟨by omega, by omega⟩
  exact ⟨h.2.1 rfl, h.2.2.2.2.2.2.2.2 5 rfl (by omega) (by omega)⟩

end Tarot

namespace Tarot

/-- Counterexample to claim C3 as stated: the Fool is a validly constructed
trump with rank 0 in a Hearts trick, yet the King of Hearts (a validly
constructed suited card) ranks 14 there, so the suited card outranks this
trump. -/
theorem fool_outranked_by_suited_counterexample :
    TrumpCard.Valid TrumpCard.Fool ∧
    (ColorCard.new_face Face.King Color.Hearts).Inv ∧
    (ColorCard.new_face Face.King Color.Hearts).rank
        (Theme.Color Color.Hearts) = some 14 ∧
    TrumpCard.Fool.rank (Theme.Color Color.Hearts) = 0 ∧
    ¬ (14 ≤ 0) :=
  ⟨trivial, rfl, rfl, rfl, by omega⟩

/-- Claim C3 (amended): for every validly constructed numbered trump
`Number n`, every validly constructed suited card and every theme, the
suited card never outranks that trump; the Fool (rank 0 under every theme)
is excluded, since a suited card of the trick's suit does outrank it. -/
theorem suited_never_outranks_numbered_trump
    (t : TrumpCard) (ht : t.Valid) (hnf : t ≠ TrumpCard.Fool)
    (s : ColorCard) (hs : s.Inv) (th : Theme) (rs : Nat)
    (hr : s.rank th = some rs) : rs ≤ t.rank th := by
  cases t with
  | Fool => exact absurd rfl hnf
  | Number n =>
      obtain ⟨h1, h21⟩ := ht
      cases th with
      | Trump =>
          rw [ColorCard.rank_Trump] at hr
          injection hr with h
          rw [TrumpCard.rank_Number_Trump]
          omega
      | Color c =>
          rw [ColorCard.rank_Color] at hr
          injection hr with h
          rw [TrumpCard.rank_Number_Color n h21]
          have hb := ColorCard.number_bounds s hs
          by_cases hc : s.color = c
          · rw [if_pos hc] at h
            omega
          · rw [if_neg hc] at h
            omega

/-- Witness for the amended C3: the King of Hearts (rank 14) does not
outrank the 1 of trumps in a Hearts trick. -/
theorem suited_never_outranks_numbered_trump_witness :
    14 ≤ TrumpCard.little_one.rank (Theme.Color Color.Hearts) :=
  suited_never_outranks_numbered_trump TrumpCard.little_one
    ⟨by omega, by omega⟩ (by decide)
    (ColorCard.new_face Face.King Color.Hearts) rfl
    (Theme.Color Color.Hearts) 14 rfl

/-- Claim C4: two validly constructed cards with distinct identities can
only share a rank of 0 under any theme: if their ranks under a theme are
equal, that common rank is `some 0`. -/
theorem distinct_valid_cards_share_only_rank_zero
    (a b : AnyCard) (ha : a.Valid) (hb : b.Valid) (hne : a ≠ b)
    (th : Theme) (heq : a.rank th = b.rank th) : a.rank th = some 0 := by
  cases a with
  | suited s1 =>
    cases th with
    | Trump => exact ColorCard.rank_Trump s1
    | Color c =>
      by_cases hc1 : s1.color = c
      · have hs1 := ColorCard.number_bounds s1 ha
        have hra : (AnyCard.suited s1).rank (Theme.Color c)
            = some s1.number := by
          simp [AnyCard.rank, ColorCard.rank_Color, hc1]
        cases b with
        | suited s2 =>
          by_cases hc2 : s2.color = c
          · have hrb : (AnyCard.suited s2).rank (Theme.Color c)
                = some s2.number := by
              simp [AnyCard.rank, ColorCard.rank_Color, hc2]
            rw [hra, hrb, Option.some.injEq] at heq
            have hss : s1 = s2 :=
              ColorCard.eq_of_color_number_eq s1 s2 ha hb
                (hc1.trans hc2.symm) heq
            exact absurd (congrArg AnyCard.suited hss) hne
          · have hrb : (AnyCard.suited s2).rank (Theme.Color c)
                = some 0 := by
              simp [AnyCard.rank, ColorCard.rank_Color, hc2]
            rw [hra, hrb, Option.some.injEq] at heq
            exfalso
            omega
        | trump t =>
          cases t with
          | Fool => rw [heq]; rfl
          | Number n =>
            obtain ⟨hn1, hn21⟩ := hb
            have hrb : (AnyCard.trump (TrumpCard.Number n)).rank
                (Theme.Color c) = some (14 + n) := by
              simp [AnyCard.rank, TrumpCard.rank_Number_Color n hn21]
            rw [hra, hrb, Option.some.injEq] at heq
            exfalso
            omega
      · simp [AnyCard.rank, ColorCard.rank_Color, hc1]
  | trump t1 =>
    cases t1 with
    | Fool => rfl
    | Number n1 =>
      obtain ⟨h11, h121⟩ := ha
      exfalso
      cases b with
      | suited s2 =>
        have hs2 := ColorCard.number_bounds s2 hb
        cases th with
        | Trump =>
          rw [show (AnyCard.trump (TrumpCard.Number n1)).rank Theme.Trump
                = some n1 from rfl,
              show (AnyCard.suited s2).rank Theme.Trump
                = some 0 from rfl] at heq
          injection heq with h
          omega
        | Color c =>
          have hra : (AnyCard.trump (TrumpCard.Number n1)).rank
              (Theme.Color c) = some (14 + n1) := by
            simp [AnyCard.rank, TrumpCard.rank_Number_Color n1 h121]
          rw [hra] at heq
          by_cases hc2 : s2.color = c
          · have hrb : (AnyCard.suited s2).rank (Theme.Color c)
                = some s2.number := by
              simp [AnyCard.rank, ColorCard.rank_Color, hc2]
            rw [hrb, Option.some.injEq] at heq
            omega
          · have hrb : (AnyCard.suited s2).rank (Theme.Color c)
                = some 0 := by
              simp [AnyCard.rank, ColorCard.rank_Color, hc2]
            rw [hrb, Option.some.injEq] at heq
            omega
      | trump t2 =>
        cases t2 with
        | Fool =>
          cases th with
          | Trump =>
            rw [show (AnyCard.trump (TrumpCard.Number n1)).rank Theme.Trump
                  = some n1 from rfl,
                show (AnyCard.trump TrumpCard.Fool).rank Theme.Trump
                  = some 0 from rfl] at heq
            injection heq with h
            omega
          | Color c =>
            rw [show (AnyCard.trump (TrumpCard.Number n1)).rank
                (Theme.Color c) = some (14 + n1) from by
              simp [AnyCard.rank, TrumpCard.rank_Number_Color n1 h121],
                show (AnyCard.trump TrumpCard.Fool).rank (Theme.Color c)
                  = some 0 from rfl] at heq
            injection heq with h
            omega
        | Number n2 =>
          obtain ⟨h21, h221⟩ := hb
          have hne2 : n1 ≠ n2 := by
            intro h
            subst h
            exact hne rfl
          cases th with
          | Trump =>
            injection heq with h
            exact hne2 h
          | Color c =>
            rw [show (AnyCard.trump (TrumpCard.Number n1)).rank
                (Theme.Color c) = some (14 + n1) from by
              simp [AnyCard.rank, TrumpCard.rank_Number_Color n1 h121],
              show (AnyCard.trump (TrumpCard.Number n2)).rank
                (Theme.Color c) = some (14 + n2) from by
              simp [AnyCard.rank, TrumpCard.rank_Number_Color n2 h221]] at heq
            injection heq with h
            omega

/-- Witness for C4: the King and Queen of Hearts are distinct valid cards
with equal rank in a trump trick, and that shared rank is 0. -/
theorem distinct_valid_cards_share_only_rank_zero_witness :
    AnyCard.rank (AnyCard.suited (ColorCard.new_face Face.King Color.Hearts))
      Theme.Trump = some 0 :=
  distinct_valid_cards_share_only_rank_zero
    (AnyCard.suited (ColorCard.new_face Face.King Color.Hearts))
    (AnyCard.suited (ColorCard.new_face Face.Queen Color.Hearts))
    rfl rfl (by decide) Theme.Trump rfl

end Tarot

namespace Tarot

/-- Claim C5: for every u8 number `n` and suit `c`, `new_pip n c` succeeds
exactly when `1 ≤ n ≤ 10`, producing a card with `is_pip` true and
`is_face` false; for `n = 0` or `11 ≤ n ≤ 255` it fails with a
`PipValueError` carrying the offending value `n`. -/
theorem new_pip_spec (n : Nat) (c : Color) (hn : n ≤ 255) :
    (1 ≤ n ∧ n ≤ 10 →
      ∃ card, ColorCard.new_pip n c = .ok card ∧
        card.is_pip = true ∧ card.is_face = false) ∧
    (n = 0 ∨ 11 ≤ n →
      ColorCard.new_pip n c = .error (PipValueError.new n) ∧
      (PipValueError.new n).inner.value = n) := by
  constructor
  · rintro ⟨h1, h10⟩
    refine ⟨⟨c, none, n⟩, ?_, rfl, rfl⟩
    simp only [ColorCard.new_pip]
    rw [if_pos ⟨by omega, by omega⟩]
  · intro h
    refine ⟨?_, rfl⟩
    simp only [ColorCard.new_pip]
    rw [if_neg (by omega)]

/-- Witness for C5: `new_pip 7` succeeds as a pip card and `new_pip 42`
fails with a `PipValueError` carrying 42. -/
theorem new_pip_spec_witness :
    (∃ card, ColorCard.new_pip 7 Color.Hearts = .ok card ∧
      card.is_pip = true ∧ card.is_face = false) ∧
    ColorCard.new_pip 42 Color.Hearts = .error (PipValueError.new 42) :=
  ⟨(new_pip_spec 7 Color.Hearts (by omega)).1 ⟨by omega, by omega⟩,
   ((new_pip_spec 42 Color.Hearts (by omega)).2 (by omega)).1⟩

/-- Claim C6: for every u8 value `v`, `new_trump_card v` succeeds exactly
when `1 ≤ v ≤ 21`, producing `Number v`; for `v = 0` or `22 ≤ v ≤ 255` it
fails with a `TrumpValueError` carrying the offending value `v`. -/
theorem new_trump_card_spec (v : Nat) (hv : v ≤ 255) :
    (1 ≤ v ∧ v ≤ 21 →
      TrumpCard.new_trump_card v = .ok (TrumpCard.Number v)) ∧
    (v = 0 ∨ 22 ≤ v →
      TrumpCard.new_trump_card v = .error (TrumpValueError.new v) ∧
      (TrumpValueError.new v).inner.value = v) := by
  constructor
  · rintro ⟨h1, h21⟩
    simp only [TrumpCard.new_trump_card]
    rw [if_pos ⟨by omega, by omega⟩]
  · intro h
    refine ⟨?_, rfl⟩
    simp only [TrumpCard.new_trump_card]
    rw [if_neg (by omega)]

/-- Witness for C6: `new_trump_card 15` succeeds as `Number 15` and
`new_trump_card 22` fails with a `TrumpValueError` carrying 22. -/
theorem new_trump_card_spec_witness :
    TrumpCard.new_trump_card 15 = .ok (TrumpCard.Number 15) ∧
    TrumpCard.new_trump_card 22 = .error (TrumpValueError.new 22) :=
  ⟨(new_trump_card_spec 15 (by omega)).1 ⟨by omega, by omega⟩,
   ((new_trump_card_spec 22 (by omega)).2 (by omega)).1⟩

/-- Claim C7: both `ColorCard` constructors establish the construction
invariant: `new_face` stores the face together with its fixed ordinal
(King 14, Queen 13, Knight 12, Jack 11, so the number is in `[11, 14]`),
and any card returned by `new_pip` is a pip card with number in `[1, 10]`;
all values are immutable afterwards, so the invariant persists. -/
theorem constructors_establish_invariant (f : Face) (c : Color) (n : Nat)
    (card : ColorCard) (h : ColorCard.new_pip n c = .ok card) :
    (ColorCard.new_face f c).Inv ∧
    (ColorCard.new_face f c).face = some f ∧
    (ColorCard.new_face Face.King c).number = 14 ∧
    (ColorCard.new_face Face.Queen c).number = 13 ∧
    (ColorCard.new_face Face.Knight c).number = 12 ∧
    (ColorCard.new_face Face.Jack c).number = 11 ∧
    11 ≤ (ColorCard.new_face f c).number ∧
    (ColorCard.new_face f c).number ≤ 14 ∧
    card.Inv := by
  obtain ⟨hcard, h1, h10⟩ := ColorCard.new_pip_ok n c card h
  subst hcard
  refine ⟨?_, rfl, rfl, rfl, rfl, rfl, ?_, ?_, ?_⟩
  · cases f <;> rfl
  · cases f <;> simp [ColorCard.new_face]
  · cases f <;> simp [ColorCard.new_face]
  · exact ⟨h1, h10⟩

/-- Witness for C7: the Jack of Clubs and the 3 of Clubs both satisfy the
invariant. -/
theorem constructors_establish_invariant_witness :
    (ColorCard.new_face Face.Jack Color.Clubs).Inv ∧
    ColorCard.Inv ⟨Color.Clubs, none, 3⟩ := by
  have h := constructors_establish_invariant Face.Jack Color.Clubs 3
    ⟨Color.Clubs, none, 3⟩ rfl
  exact ⟨h.1, h.2.2.2.2.2.2.2.2⟩

/-- Claim C8: `Theme.color` returns `some c` on `Color c` and `none` on
`Trump`, never failing; `Theme.color_checked` returns the suit on
`Color c` and panics (modelled as `none`) exactly on `Trump`. -/
theorem theme_color_access (c : Color) :
    (Theme.Color c).color = some c ∧
    Theme.Trump.color = none ∧
    (Theme.Color c).color_checked = some c ∧
    (∀ t : Theme, t.color_checked = none ↔ t = Theme.Trump) := by
  refine ⟨rfl, rfl, rfl, ?_⟩
  intro t
  cases t with
  | Trump => simp [Theme.color_checked]
  | Color c2 => simp [Theme.color_checked]

/-- Claim C9: for every u8 value `v`, `PipValueError v` displays exactly
"the value {v} doesn\x27t represent any pip card", and `TrumpValueError v`
displays the identical text (the "pip card" wording included). -/
theorem error_display_messages (v : Nat) :
    (PipValueError.new v).display =
      "the value " ++ toString v ++ " doesn\x27t represent any pip card" ∧
    (TrumpValueError.new v).display = (PipValueError.new v).display :=
  ⟨rfl, rfl⟩

/-- Claim C10: for every validly constructed card and theme, `rank`
returns normally: the `color_checked` call inside `ColorCard::rank` never
panics (the result is always `some`), and the u8 addition `14 + n` in
`TrumpCard::rank` stays at most 35 (no wrap) since constructed trump
numbers satisfy `n ≤ 21`; bypassing the constructor with `n > 241` would
make the addition wrap around 256. -/
theorem rank_total_no_overflow (cc : ColorCard) (hcc : cc.Inv)
    (t : TrumpCard) (ht : t.Valid) (th : Theme) :
    (∃ r, cc.rank th = some r) ∧
    (∀ n, t = TrumpCard.Number n → th.is_color = true →
      t.rank th = 14 + n ∧ 14 + n ≤ 35) ∧
    (∀ m, 241 < m → m ≤ 255 →
      (TrumpCard.Number m).rank (Theme.Color Color.Hearts) = (14 + m) % 256 ∧
      (14 + m) % 256 < 14 + m) := by
  refine ⟨?_, ?_, ?_⟩
  · cases th with
    | Trump => exact ⟨0, rfl⟩
    | Color c =>
        exact ⟨if cc.color = c then cc.number else 0, ColorCard.rank_Color cc c⟩
  · rintro n rfl hcol
    obtain ⟨h1, h21⟩ := ht
    cases th with
    | Trump => exact Bool.noConfusion hcol
    | Color c => exact ⟨TrumpCard.rank_Number_Color n h21 c, by omega⟩
  · intro m hm1 hm2
    refine ⟨rfl, ?_⟩
    omega

/-- Witness for C10: the King of Hearts has a defined rank in a Clubs
trick and the 21 of trumps ranks exactly 14 + 21 = 35 there, without
wrap-around. -/
theorem rank_total_no_overflow_witness :
    (∃ r, (ColorCard.new_face Face.King Color.Hearts).rank
      (Theme.Color Color.Clubs) = some r) ∧
    TrumpCard.the_world.rank (Theme.Color Color.Clubs) = 35 := by
  have h := rank_total_no_overflow (ColorCard.new_face Face.King Color.Hearts)
    rfl TrumpCard.the_world ⟨by omega, by omega⟩ (Theme.Color Color.Clubs)
  exact ⟨h.1, (h.2.1 21 rfl rfl).1⟩

end Tarot
